import Mathlib

/-
Verification development for the navigation-mesh baking pipeline of
RavEngine (src/NavMeshComponent.cpp).  The constructor
NavMeshComponent::NavMeshComponent(mesh, opt) is embedded shallowly:
the configuration builder is a pure function over rationals (C floats
are modelled as exact rationals, C float-to-int conversion as
truncation toward zero), the sequence of Recast library calls is
modelled as an explicit call trace, and the Detour serialization stage
(whose external allocations and status codes can succeed or fail) is
modelled as a function of an oracle recording which external calls
succeed.
-/

namespace RavEngine

/-- A vertex position.  The source copies only the position data out of
the richer vertex structure before rasterization (object slicing,
NavMeshComponent.cpp line 22). -/
structure Vertex where
  x : ℚ
  y : ℚ
  z : ℚ
deriving DecidableEq

/-- The system-RAM copy of a mesh asset: vertex positions and triangle
indices (three consecutive indices form one triangle). -/
structure MeshData where
  vertices : List Vertex
  indices : List ℕ
deriving DecidableEq

/-- Agent locomotion parameters (the agent field of NavMeshOptions). -/
structure AgentOptions where
  height : ℚ
  radius : ℚ
  maxClimb : ℚ
  maxSlope : ℚ
deriving DecidableEq

/-- The three region-partitioning strategies selectable in
NavMeshOptions (source lines 89-111). -/
inductive PartitionMethod
  | Watershed
  | Monotone
  | Layer
deriving DecidableEq

/-- The bake configuration value object passed to the constructor. -/
structure NavMeshOptions where
  cellSize : ℚ
  cellHeight : ℚ
  agent : AgentOptions
  maxEdgeLen : ℚ
  maxSimplificationError : ℚ
  regionMinDimension : ℚ
  regionMergeDimension : ℚ
  maxVertsPerPoly : ℤ
  detailSampleDist : ℚ
  detailSampleMaxError : ℚ
  partitionMethod : PartitionMethod
deriving DecidableEq

/-- Recast helper rcSqr: the square of a value. -/
def rcSqr (x : ℚ) : ℚ := x * x

/-- C conversion from a floating-point value to int truncates toward
zero; on rationals this is num/den with Lean's Int division, which also
truncates toward zero. -/
def cIntOfRat (q : ℚ) : ℤ := q.num / (q.den : ℤ)

/-- The fields of Recast's rcConfig that the constructor fills in
(source lines 26-40).  Fields that are int in the C struct are ℤ here,
float fields are ℚ.  The bounds and grid-size fields (source lines
43-45) are derived from the mesh bounds by the external rcCalcGridSize
and are not needed by any claim, so they are not modelled. -/
structure rcConfig where
  cs : ℚ
  ch : ℚ
  walkableSlopeAngle : ℚ
  walkableHeight : ℤ
  walkableClimb : ℤ
  walkableRadius : ℤ
  maxEdgeLen : ℤ
  maxSimplificationError : ℚ
  minRegionArea : ℤ
  mergeRegionArea : ℤ
  maxVertsPerPoly : ℤ
  detailSampleDist : ℚ
  detailSampleMaxError : ℚ
deriving DecidableEq

/-- Step 1 of the bake (source lines 26-40): derive the voxelization
configuration from the options.  ceilf on an exact quotient is the
integer ceiling; the literal 0.9 of line 39 is the rational 9/10. -/
def mkConfig (opt : NavMeshOptions) : rcConfig where
  cs := opt.cellSize
  ch := opt.cellHeight
  walkableSlopeAngle := opt.agent.maxSlope
  walkableHeight := ⌈opt.agent.height / opt.cellHeight⌉
  walkableClimb := ⌈opt.agent.maxClimb / opt.cellHeight⌉
  walkableRadius := ⌈opt.agent.radius / opt.cellSize⌉
  maxEdgeLen := cIntOfRat (opt.maxEdgeLen / opt.cellSize)
  maxSimplificationError := opt.maxSimplificationError
  minRegionArea := cIntOfRat (rcSqr opt.regionMinDimension)
  mergeRegionArea := cIntOfRat (rcSqr opt.regionMergeDimension)
  maxVertsPerPoly := opt.maxVertsPerPoly
  detailSampleDist :=
    if opt.detailSampleDist < 9/10 then 0 else opt.cellSize * opt.detailSampleDist
  detailSampleMaxError := opt.cellHeight * opt.detailSampleMaxError

/-- A concrete option set: the flat-square scenario of the spec
(cell size 0.3, cell height 0.2, agent height 2.0, radius 0.5,
max climb 0.4, max slope 45, watershed partitioning, max 6 vertices
per polygon). -/
def opt0 : NavMeshOptions where
  cellSize := 3/10
  cellHeight := 1/5
  agent := { height := 2, radius := 1/2, maxClimb := 2/5, maxSlope := 45 }
  maxEdgeLen := 12
  maxSimplificationError := 13/10
  regionMinDimension := 8
  regionMergeDimension := 20
  maxVertsPerPoly := 6
  detailSampleDist := 1/2
  detailSampleMaxError := 1
  partitionMethod := PartitionMethod.Watershed

/-- The same options with a detail sample distance at or above the 0.9
threshold of source line 39. -/
def optHigh : NavMeshOptions :=
  { opt0 with detailSampleDist := 6 }

/-- The calls the constructor makes into the Recast library, with the
arguments that claims refer to.  A value of this type records one call
(in particular which partitioner ran and which thresholds it got). -/
inductive RecastCall
  | createHeightfield
  | markWalkableTriangles (triCountArg : ℕ) (areaBufferLen : ℕ)
  | rasterizeTriangles
  | filterLowHangingWalkableObstacles (walkableClimb : ℤ)
  | filterLedgeSpans (walkableHeight : ℤ) (walkableClimb : ℤ)
  | filterWalkableLowHeightSpans (walkableHeight : ℤ)
  | buildCompactHeightfield (walkableHeight : ℤ) (walkableClimb : ℤ)
  | freeHeightfield
  | erodeWalkableArea (walkableRadius : ℤ)
  | buildDistanceField
  | buildRegions (borderSize : ℤ) (minRegionArea : ℤ) (mergeRegionArea : ℤ)
  | buildRegionsMonotone (borderSize : ℤ) (minRegionArea : ℤ) (mergeRegionArea : ℤ)
  | buildLayerRegions (borderSize : ℤ) (minRegionArea : ℤ)
  | buildContours (maxSimplificationError : ℚ) (maxEdgeLen : ℤ)
  | buildPolyMesh (maxVertsPerPoly : ℤ)
  | buildPolyMeshDetail (sampleDist : ℚ) (sampleMaxError : ℚ)
  | freeCompactHeightfield
  | freeContourSet
deriving DecidableEq

/-- The border-size argument of a region-partitioning call, if the call
is one. -/
def borderArg : RecastCall → Option ℤ
  | RecastCall.buildRegions b _ _ => some b
  | RecastCall.buildRegionsMonotone b _ _ => some b
  | RecastCall.buildLayerRegions b _ => some b
  | _ => none

/-- The minimum-region-area argument of a region-partitioning call. -/
def minRegionAreaArg : RecastCall → Option ℤ
  | RecastCall.buildRegions _ m _ => some m
  | RecastCall.buildRegionsMonotone _ m _ => some m
  | RecastCall.buildLayerRegions _ m => some m
  | _ => none

/-- The merge-region-area argument of a region-partitioning call.
rcBuildLayerRegions takes no such argument, so a layer call yields
none. -/
def mergeRegionAreaArg : RecastCall → Option ℤ
  | RecastCall.buildRegions _ _ m => some m
  | RecastCall.buildRegionsMonotone _ _ m => some m
  | _ => none

/-- Step 4's partitioning switch (source lines 89-111): the calls made
for each strategy.  Watershed first builds a distance field, then
rcBuildRegions(ctx, chf, 0, minRegionArea, mergeRegionArea); Monotone
calls rcBuildRegionsMonotone(ctx, chf, 0, minRegionArea,
mergeRegionArea); Layer calls rcBuildLayerRegions(ctx, chf, 0,
minRegionArea). -/
def partitionTrace (method : PartitionMethod) (cfg : rcConfig) : List RecastCall :=
  match method with
  | PartitionMethod.Watershed =>
      [RecastCall.buildDistanceField,
       RecastCall.buildRegions 0 cfg.minRegionArea cfg.mergeRegionArea]
  | PartitionMethod.Monotone =>
      [RecastCall.buildRegionsMonotone 0 cfg.minRegionArea cfg.mergeRegionArea]
  | PartitionMethod.Layer =>
      [RecastCall.buildLayerRegions 0 cfg.minRegionArea]

/-- Length of the triangle-area buffer the constructor allocates at
source line 59: one byte per triangle, indices/3 entries. -/
def triareasLength (mesh : MeshData) : ℕ := mesh.indices.length / 3

/-- The triangle-count argument the constructor passes to
rcMarkWalkableTriangles at source line 61: it passes
rawData.indices.size(), the raw index count. -/
def markWalkableTrianglesTriCount (mesh : MeshData) : ℕ := mesh.indices.length

/-- The sequence of Recast calls the constructor makes from
rasterization through detail-mesh construction (source lines 50-144),
in program order. -/
def bakeTrace (mesh : MeshData) (opt : NavMeshOptions) : List RecastCall :=
  let cfg := mkConfig opt
  [RecastCall.createHeightfield,
   RecastCall.markWalkableTriangles (markWalkableTrianglesTriCount mesh) (triareasLength mesh),
   RecastCall.rasterizeTriangles,
   RecastCall.filterLowHangingWalkableObstacles cfg.walkableClimb,
   RecastCall.filterLedgeSpans cfg.walkableHeight cfg.walkableClimb,
   RecastCall.filterWalkableLowHeightSpans cfg.walkableHeight,
   RecastCall.buildCompactHeightfield cfg.walkableHeight cfg.walkableClimb,
   RecastCall.freeHeightfield,
   RecastCall.erodeWalkableArea cfg.walkableRadius]
  ++ (partitionTrace opt.partitionMethod cfg
  ++ [RecastCall.buildContours cfg.maxSimplificationError cfg.maxEdgeLen,
      RecastCall.buildPolyMesh cfg.maxVertsPerPoly,
      RecastCall.buildPolyMeshDetail cfg.detailSampleDist cfg.detailSampleMaxError,
      RecastCall.freeCompactHeightfield,
      RecastCall.freeContourSet])

/-- Outcome of one of the fatal-or-proceed checks in the constructor. -/
inductive StepResult
  | proceeds
  | fatalOutOfMemory
  | fatalCompactAlloc
deriving DecidableEq

/-- Source lines 50-53 as written: the heightfield allocation check
reads `if (solid) Debug::Fatal(...)`, so it takes the fatal branch
exactly when rcAllocHeightfield returned non-null. -/
def solidAllocCheck (allocReturnedNonNull : Bool) : StepResult :=
  if allocReturnedNonNull then StepResult.fatalOutOfMemory else StepResult.proceeds

/-- Source lines 74-77: the compact-heightfield allocation check reads
`if (!chf) Debug::Fatal(...)`, fatal exactly when the allocation
returned null. -/
def chfAllocCheck (allocReturnedNonNull : Bool) : StepResult :=
  if !allocReturnedNonNull then StepResult.fatalCompactAlloc else StepResult.proceeds

/-- Detour's per-polygon vertex limit DT_VERTS_PER_POLYGON, from the
external Detour library headers (its exact value is irrelevant to the
claims; only the comparison against it matters). -/
def DT_VERTS_PER_POLYGON : ℤ := 6

/-- The heap objects the serialization stage (step 8) can construct:
the serialized navigation-data blob and the runtime navigation mesh
object.  (The query object is a pre-existing component member that is
only initialized here, not allocated.) -/
inductive DetourObject
  | navDataBlob
  | navMeshObj
deriving DecidableEq

/-- Which of the external Detour calls of step 8 succeed. -/
structure DetourEnv where
  createNavMeshDataOk : Bool
  allocNavMeshOk : Bool
  navMeshInitOk : Bool
  queryInitOk : Bool
deriving DecidableEq

/-- How the serialization stage ends: success, skipped with a warning
(too many vertices per polygon), or one of the four fatal aborts of
source lines 180-205. -/
inductive BakeOutcome
  | success
  | skipped
  | fatalNavDataCreation
  | fatalNavMeshAlloc
  | fatalNavMeshInit
  | fatalQueryInit
deriving DecidableEq

/-- Whether an outcome is one of the fatal aborts. -/
def BakeOutcome.isFatal : BakeOutcome → Bool
  | BakeOutcome.success => false
  | BakeOutcome.skipped => false
  | _ => true

/-- What the serialization stage left behind: its outcome, the heap
objects it had constructed by the time it ended, the objects it freed
before a fatal abort, whether the runtime mesh and query ended up
initialized, and whether the non-fatal warning was emitted. -/
structure SerializationResult where
  outcome : BakeOutcome
  constructed : List DetourObject
  freedBeforeAbort : List DetourObject
  hasRuntimeMesh : Bool
  hasRuntimeQuery : Bool
  warningEmitted : Bool
deriving DecidableEq

/-- Step 8 (source lines 147-209).  Inside the maxVertsPerPoly gate:
dtCreateNavMeshData failure is fatal with nothing constructed;
dtAllocNavMesh failure frees the blob then aborts; navMesh-init failure
frees the blob (but not the mesh object) then aborts; query-init
failure frees nothing before aborting (the blob now belongs to the
mesh via DT_TILE_FREE_DATA).  Above the gate: Debug::Warning and no
Detour data at all. -/
def serializationStep (maxVertsPerPoly : ℤ) (env : DetourEnv) : SerializationResult :=
  if maxVertsPerPoly ≤ DT_VERTS_PER_POLYGON then
    if env.createNavMeshDataOk = false then
      { outcome := BakeOutcome.fatalNavDataCreation, constructed := [],
        freedBeforeAbort := [], hasRuntimeMesh := false,
        hasRuntimeQuery := false, warningEmitted := false }
    else if env.allocNavMeshOk = false then
      { outcome := BakeOutcome.fatalNavMeshAlloc,
        constructed := [DetourObject.navDataBlob],
        freedBeforeAbort := [DetourObject.navDataBlob],
        hasRuntimeMesh := false, hasRuntimeQuery := false,
        warningEmitted := false }
    else if env.navMeshInitOk = false then
      { outcome := BakeOutcome.fatalNavMeshInit,
        constructed := [DetourObject.navDataBlob, DetourObject.navMeshObj],
        freedBeforeAbort := [DetourObject.navDataBlob],
        hasRuntimeMesh := false, hasRuntimeQuery := false,
        warningEmitted := false }
    else if env.queryInitOk = false then
      { outcome := BakeOutcome.fatalQueryInit,
        constructed := [DetourObject.navDataBlob, DetourObject.navMeshObj],
        freedBeforeAbort := [], hasRuntimeMesh := true,
        hasRuntimeQuery := false, warningEmitted := false }
    else
      { outcome := BakeOutcome.success,
        constructed := [DetourObject.navDataBlob, DetourObject.navMeshObj],
        freedBeforeAbort := [], hasRuntimeMesh := true,
        hasRuntimeQuery := true, warningEmitted := false }
  else
    { outcome := BakeOutcome.skipped, constructed := [],
      freedBeforeAbort := [], hasRuntimeMesh := false,
      hasRuntimeQuery := false, warningEmitted := true }

/-- The deallocation calls of the destructor (source lines 212-216). -/
inductive TeardownEvent
  | freeNavMesh
  | freeNavMeshQuery
  | freeNavData
deriving DecidableEq

/-- The destructor body in program order: dtFree(navMesh),
dtFree(navMeshQuery), dtFree(navData). -/
def destructorTrace : List TeardownEvent :=
  [TeardownEvent.freeNavMesh, TeardownEvent.freeNavMeshQuery, TeardownEvent.freeNavData]

/-- Structural summary of the polygon mesh a bake produces. -/
structure PolyMeshStats where
  npolys : ℕ
  nverts : ℕ
deriving DecidableEq

/-- Structural summary of the detail mesh a bake produces. -/
structure DetailMeshStats where
  nverts : ℕ
  ntris : ℕ
deriving DecidableEq

/-- The external Recast mesh builders, modelled as pure functions of
the bake inputs: the library computes the polygon and detail meshes
from the rasterized geometry and the configuration alone. -/
structure RecastEnv where
  polyMeshOf : MeshData → rcConfig → PolyMeshStats
  detailMeshOf : MeshData → rcConfig → DetailMeshStats

/-- The polygon and detail meshes a bake produces. -/
structure BakeResult where
  pmesh : PolyMeshStats
  dmesh : DetailMeshStats
deriving DecidableEq

/-- Any state that could persist between bakes.  The constructor reads
and writes only its own locals and per-component members, so a bake is
given this state explicitly and must thread it through untouched. -/
structure HiddenState where
  scratch : ℕ

/-- One full bake as a function of its inputs and the carried-over
state: the result depends only on the environment, the mesh and the
options, and the cross-bake state passes through unchanged. -/
def bakeMeshes (env : RecastEnv) (mesh : MeshData) (opt : NavMeshOptions)
    (s : HiddenState) : BakeResult × HiddenState :=
  let cfg := mkConfig opt
  ({ pmesh := env.polyMeshOf mesh cfg, dmesh := env.detailMeshOf mesh cfg }, s)

/-- A one-triangle mesh: three vertices, indices 0,1,2. -/
def mesh3 : MeshData where
  vertices := [{ x := 0, y := 0, z := 0 }, { x := 1, y := 0, z := 0 }, { x := 0, y := 0, z := 1 }]
  indices := [0, 1, 2]

/-- Claim C1 (code behavior at the failing input): the solid-heightfield
allocation check aborts fatally when the allocation SUCCEEDED (non-null
result) and proceeds when it FAILED (null result) — the opposite of the
claimed behavior, and the opposite of the sibling compact-heightfield
check, which is fatal exactly on a null result. -/
theorem solid_alloc_check_inverted :
    solidAllocCheck true = StepResult.fatalOutOfMemory
    ∧ solidAllocCheck false = StepResult.proceeds
    ∧ chfAllocCheck true = StepResult.proceeds
    ∧ chfAllocCheck false = StepResult.fatalCompactAlloc := by
  decide

/-- Claim C2: assuming the serialization stage does not abort fatally,
the runtime mesh and query are both produced exactly when the
configured max vertices per polygon is at most DT_VERTS_PER_POLYGON;
and whenever the limit is exceeded, the stage emits the non-fatal
warning, constructs nothing (no serialization attempted), and ends with
no runtime mesh or query and a non-fatal skipped outcome. -/
theorem detour_stage_gate (mv : ℤ) (env : DetourEnv)
    (h : (serializationStep mv env).outcome.isFatal = false) :
    (((serializationStep mv env).hasRuntimeMesh = true
        ∧ (serializationStep mv env).hasRuntimeQuery = true)
      ↔ mv ≤ DT_VERTS_PER_POLYGON)
    ∧ (DT_VERTS_PER_POLYGON < mv →
        (serializationStep mv env).outcome = BakeOutcome.skipped
        ∧ (serializationStep mv env).warningEmitted = true
        ∧ (serializationStep mv env).constructed = []
        ∧ (serializationStep mv env).hasRuntimeMesh = false
        ∧ (serializationStep mv env).hasRuntimeQuery = false) := by
  rcases env with ⟨c, a, i, q⟩
  by_cases hm : mv ≤ DT_VERTS_PER_POLYGON
  · cases c <;> cases a <;> cases i <;> cases q <;>
      simp_all [serializationStep, BakeOutcome.isFatal]
  · simp [serializationStep, hm, BakeOutcome.isFatal]

/-- Witness for C2 at a concrete input: max vertices per polygon 7
exceeds the limit 6, the outcome is the non-fatal skip with the
warning emitted and nothing constructed. -/
theorem detour_stage_gate_witness :
    (serializationStep 7 ⟨true, true, true, true⟩).outcome.isFatal = false
    ∧ (serializationStep 7 ⟨true, true, true, true⟩).outcome = BakeOutcome.skipped
    ∧ (serializationStep 7 ⟨true, true, true, true⟩).warningEmitted = true
    ∧ (serializationStep 7 ⟨true, true, true, true⟩).constructed = [] :=
  ⟨by decide,
   ((detour_stage_gate 7 ⟨true, true, true, true⟩ (by decide)).2 (by decide)).1,
   ((detour_stage_gate 7 ⟨true, true, true, true⟩ (by decide)).2 (by decide)).2.1,
   ((detour_stage_gate 7 ⟨true, true, true, true⟩ (by decide)).2 (by decide)).2.2.1⟩

/-- Claim C3: for a valid agent profile (height positive, radius and
max climb non-negative) and strictly positive cell size and height,
the derived configuration's walkable height, climb and radius are the
ceilings of the corresponding world-unit values divided by the cell
unit, and each is a non-negative integer. -/
theorem walkable_fields_are_ceilings (opt : NavMeshOptions)
    (hh : 0 < opt.agent.height) (hr : 0 ≤ opt.agent.radius)
    (hc : 0 ≤ opt.agent.maxClimb) (hcs : 0 < opt.cellSize)
    (hch : 0 < opt.cellHeight) :
    (mkConfig opt).walkableHeight = ⌈opt.agent.height / opt.cellHeight⌉
    ∧ (mkConfig opt).walkableClimb = ⌈opt.agent.maxClimb / opt.cellHeight⌉
    ∧ (mkConfig opt).walkableRadius = ⌈opt.agent.radius / opt.cellSize⌉
    ∧ 0 ≤ (mkConfig opt).walkableHeight
    ∧ 0 ≤ (mkConfig opt).walkableClimb
    ∧ 0 ≤ (mkConfig opt).walkableRadius := by
  refine ⟨rfl, rfl, rfl, ?_, ?_, ?_⟩
  · exact Int.ceil_nonneg (div_nonneg hh.le hch.le)
  · exact Int.ceil_nonneg (div_nonneg hc hch.le)
  · exact Int.ceil_nonneg (div_nonneg hr hcs.le)

/-- Witness for C3 at the spec's flat-square scenario options. -/
theorem walkable_fields_are_ceilings_witness :
    0 < opt0.agent.height ∧ 0 ≤ opt0.agent.radius ∧ 0 ≤ opt0.agent.maxClimb
    ∧ 0 < opt0.cellSize ∧ 0 < opt0.cellHeight
    ∧ (mkConfig opt0).walkableHeight = ⌈opt0.agent.height / opt0.cellHeight⌉
    ∧ 0 ≤ (mkConfig opt0).walkableRadius := by
  have h1 : 0 < opt0.agent.height := by norm_num [opt0]
  have h2 : 0 ≤ opt0.agent.radius := by norm_num [opt0]
  have h3 : 0 ≤ opt0.agent.maxClimb := by norm_num [opt0]
  have h4 : 0 < opt0.cellSize := by norm_num [opt0]
  have h5 : 0 < opt0.cellHeight := by norm_num [opt0]
  have h := walkable_fields_are_ceilings opt0 h1 h2 h3 h4 h5
  exact ⟨h1, h2, h3, h4, h5, h.1, h.2.2.2.2.2⟩

/-- Claim C4: in the call trace of every bake, the three span filters
appear consecutively — low-hanging-obstacle removal with the walkable
climb, then ledge-span removal with walkable height and climb, then
low-clearance removal with the walkable height — with no other call
between them. -/
theorem filter_stage_order (mesh : MeshData) (opt : NavMeshOptions) :
    List.IsInfix
      [RecastCall.filterLowHangingWalkableObstacles (mkConfig opt).walkableClimb,
       RecastCall.filterLedgeSpans (mkConfig opt).walkableHeight (mkConfig opt).walkableClimb,
       RecastCall.filterWalkableLowHeightSpans (mkConfig opt).walkableHeight]
      (bakeTrace mesh opt) :=
  ⟨[RecastCall.createHeightfield,
    RecastCall.markWalkableTriangles (markWalkableTrianglesTriCount mesh) (triareasLength mesh),
    RecastCall.rasterizeTriangles],
   [RecastCall.buildCompactHeightfield (mkConfig opt).walkableHeight (mkConfig opt).walkableClimb,
    RecastCall.freeHeightfield,
    RecastCall.erodeWalkableArea (mkConfig opt).walkableRadius]
   ++ (partitionTrace opt.partitionMethod (mkConfig opt)
   ++ [RecastCall.buildContours (mkConfig opt).maxSimplificationError (mkConfig opt).maxEdgeLen,
       RecastCall.buildPolyMesh (mkConfig opt).maxVertsPerPoly,
       RecastCall.buildPolyMeshDetail (mkConfig opt).detailSampleDist (mkConfig opt).detailSampleMaxError,
       RecastCall.freeCompactHeightfield,
       RecastCall.freeContourSet]),
   rfl⟩

/-- Claim C5 as stated is false: for the Layer variant at the concrete
scenario options, no partitioning call in the trace carries a border
count of zero, the configured minimum region area AND the configured
merge-region threshold — rcBuildLayerRegions takes no merge-region
argument at all. -/
theorem layer_partition_lacks_merge_threshold :
    ¬ ∃ c ∈ partitionTrace PartitionMethod.Layer (mkConfig opt0),
        borderArg c = some 0
        ∧ minRegionAreaArg c = some (mkConfig opt0).minRegionArea
        ∧ mergeRegionAreaArg c = some (mkConfig opt0).mergeRegionArea := by
  rintro ⟨c, hc, hb, hmin, hmerge⟩
  simp only [partitionTrace, List.mem_singleton] at hc
  subst hc
  simp [mergeRegionAreaArg] at hmerge

/-- Claim C5 amended: the Watershed and Monotone partitioners are
invoked with border-region count zero, the configured minimum region
area and the configured merge-region threshold; the Layer partitioner
is invoked with border-region count zero and the configured minimum
region area only, its call carrying no merge-region argument. -/
theorem partition_invocation_arguments (cfg : rcConfig) :
    partitionTrace PartitionMethod.Watershed cfg
      = [RecastCall.buildDistanceField,
         RecastCall.buildRegions 0 cfg.minRegionArea cfg.mergeRegionArea]
    ∧ partitionTrace PartitionMethod.Monotone cfg
      = [RecastCall.buildRegionsMonotone 0 cfg.minRegionArea cfg.mergeRegionArea]
    ∧ partitionTrace PartitionMethod.Layer cfg
      = [RecastCall.buildLayerRegions 0 cfg.minRegionArea]
    ∧ borderArg (RecastCall.buildLayerRegions 0 cfg.minRegionArea) = some 0
    ∧ minRegionAreaArg (RecastCall.buildLayerRegions 0 cfg.minRegionArea)
      = some cfg.minRegionArea
    ∧ mergeRegionAreaArg (RecastCall.buildLayerRegions 0 cfg.minRegionArea) = none :=
  ⟨rfl, rfl, rfl, rfl, rfl, rfl⟩

/-- Claim C6 as stated is false at a concrete input: when the runtime
mesh allocation succeeds but its init fails, the stage aborts fatally
having constructed both the blob and the mesh object but freeing only
the blob — the mesh object is not freed before the abort. -/
theorem serialization_cleanup_counterexample :
    (serializationStep 6 ⟨true, true, false, true⟩).outcome.isFatal = true
    ∧ DetourObject.navMeshObj ∈ (serializationStep 6 ⟨true, true, false, true⟩).constructed
    ∧ DetourObject.navMeshObj ∉ (serializationStep 6 ⟨true, true, false, true⟩).freedBeforeAbort := by
  decide

/-- Claim C6 amended: within the serialization stage, a nav-data
creation failure aborts with nothing constructed and nothing freed; a
runtime-mesh allocation failure aborts with the blob constructed and
the blob freed; a mesh-init failure aborts with blob and mesh object
constructed but only the blob freed; a query-init failure aborts with
blob and mesh object constructed (the blob owned by the mesh) and
nothing freed. -/
theorem serialization_cleanup_paths (mv : ℤ) (env : DetourEnv)
    (hm : mv ≤ DT_VERTS_PER_POLYGON) :
    (env.createNavMeshDataOk = false →
      (serializationStep mv env).outcome = BakeOutcome.fatalNavDataCreation
      ∧ (serializationStep mv env).constructed = []
      ∧ (serializationStep mv env).freedBeforeAbort = [])
    ∧ (env.createNavMeshDataOk = true → env.allocNavMeshOk = false →
      (serializationStep mv env).outcome = BakeOutcome.fatalNavMeshAlloc
      ∧ (serializationStep mv env).constructed = [DetourObject.navDataBlob]
      ∧ (serializationStep mv env).freedBeforeAbort = [DetourObject.navDataBlob])
    ∧ (env.createNavMeshDataOk = true → env.allocNavMeshOk = true →
        env.navMeshInitOk = false →
      (serializationStep mv env).outcome = BakeOutcome.fatalNavMeshInit
      ∧ (serializationStep mv env).constructed
          = [DetourObject.navDataBlob, DetourObject.navMeshObj]
      ∧ (serializationStep mv env).freedBeforeAbort = [DetourObject.navDataBlob])
    ∧ (env.createNavMeshDataOk = true → env.allocNavMeshOk = true →
        env.navMeshInitOk = true → env.queryInitOk = false →
      (serializationStep mv env).outcome = BakeOutcome.fatalQueryInit
      ∧ (serializationStep mv env).constructed
          = [DetourObject.navDataBlob, DetourObject.navMeshObj]
      ∧ (serializationStep mv env).freedBeforeAbort = []) := by
  rcases env with ⟨c, a, i, q⟩
  cases c <;> cases a <;> cases i <;> cases q <;>
    simp [serializationStep, hm]

/-- Witness for the amended C6 at a concrete input: allocation failure
of the runtime mesh frees exactly the blob before aborting. -/
theorem serialization_cleanup_paths_witness :
    (6 : ℤ) ≤ DT_VERTS_PER_POLYGON
    ∧ (serializationStep 6 ⟨true, false, true, true⟩).freedBeforeAbort
        = [DetourObject.navDataBlob] :=
  ⟨by decide,
   ((serialization_cleanup_paths 6 ⟨true, false, true, true⟩ (by decide)).2.1
     rfl rfl).2.2⟩

/-- Claim C7 (code behavior): the destructor frees the navigation mesh
first, then the query, then frees the serialized blob as well — it
does not release the query before the mesh, and it does free the blob
independently even though blob ownership passed to the runtime mesh at
construction. -/
theorem destructor_frees_blob_and_mesh_first :
    TeardownEvent.freeNavData ∈ destructorTrace
    ∧ destructorTrace.head? = some TeardownEvent.freeNavMesh
    ∧ destructorTrace.get? 1 = some TeardownEvent.freeNavMeshQuery
    ∧ destructorTrace.get? 2 = some TeardownEvent.freeNavData := by
  refine ⟨?_, rfl, rfl, rfl⟩
  exact List.mem_cons_of_mem _ (List.mem_cons_of_mem _ (List.mem_cons_self _ _))

/-- Claim C8: a bake is a deterministic function of the environment,
mesh and options — its result does not depend on the carried-over
state, baking again right after a bake gives a structurally identical
result (same polygon and vertex counts, same detail mesh), and the
cross-bake state is left untouched. -/
theorem bake_deterministic (env : RecastEnv) (mesh : MeshData)
    (opt : NavMeshOptions) (s1 s2 : HiddenState) :
    (bakeMeshes env mesh opt s1).1 = (bakeMeshes env mesh opt s2).1
    ∧ (bakeMeshes env mesh opt ((bakeMeshes env mesh opt s1).2)).1
        = (bakeMeshes env mesh opt s1).1
    ∧ (bakeMeshes env mesh opt s1).1.pmesh.npolys
        = (bakeMeshes env mesh opt s2).1.pmesh.npolys
    ∧ (bakeMeshes env mesh opt s1).1.pmesh.nverts
        = (bakeMeshes env mesh opt s2).1.pmesh.nverts
    ∧ (bakeMeshes env mesh opt s1).1.dmesh
        = (bakeMeshes env mesh opt s2).1.dmesh
    ∧ (bakeMeshes env mesh opt s1).2 = s1 :=
  ⟨rfl, rfl, rfl, rfl, rfl, rfl⟩

/-- Claim C9: the detail sample distance handed to the detail-mesh
builder is 0 whenever the configured detailSampleDist is below 0.9,
and cellSize times detailSampleDist otherwise. -/
theorem detail_sample_dist_clamped (opt : NavMeshOptions) :
    (opt.detailSampleDist < 9/10 → (mkConfig opt).detailSampleDist = 0)
    ∧ (9/10 ≤ opt.detailSampleDist →
        (mkConfig opt).detailSampleDist = opt.cellSize * opt.detailSampleDist) := by
  constructor
  · intro h
    simp [mkConfig, h]
  · intro h
    simp [mkConfig, not_lt.mpr h]

/-- Witness for C9 on both sides of the threshold: at the scenario
options the configured 0.5 is clamped to 0, and at 6 the effective
distance is cellSize times 6. -/
theorem detail_sample_dist_clamped_witness :
    (opt0.detailSampleDist < 9/10 ∧ (mkConfig opt0).detailSampleDist = 0)
    ∧ (9/10 ≤ optHigh.detailSampleDist
        ∧ (mkConfig optHigh).detailSampleDist
            = optHigh.cellSize * optHigh.detailSampleDist) := by
  have hlo : opt0.detailSampleDist < 9/10 := by norm_num [opt0]
  have hhi : (9:ℚ)/10 ≤ optHigh.detailSampleDist := by norm_num [optHigh, opt0]
  exact ⟨⟨hlo, (detail_sample_dist_clamped opt0).1 hlo⟩,
         ⟨hhi, (detail_sample_dist_clamped optHigh).2 hhi⟩⟩

/-- Claim C10 at the failing input: for a one-triangle mesh the
triangle-area buffer holds one entry, yet the classifier is handed a
count of 3 (the raw index count), so the count passed exceeds the
buffer length; the call with these arguments is the one the bake
makes. -/
theorem mark_call_out_of_bounds :
    markWalkableTrianglesTriCount mesh3 = 3
    ∧ triareasLength mesh3 = 1
    ∧ ¬ markWalkableTrianglesTriCount mesh3 ≤ triareasLength mesh3
    ∧ RecastCall.markWalkableTriangles 3 1 ∈ bakeTrace mesh3 opt0 := by
  refine ⟨rfl, rfl, by decide, ?_⟩
  show RecastCall.markWalkableTriangles 3 1 ∈ bakeTrace mesh3 opt0
  exact List.mem_cons_of_mem _ (List.mem_cons_self _ _)

end RavEngine
